import Mathlib

/-!
# Verification of `scripts/convert-numbers-to-csv.py`

A shallow embedding of the Numbers-to-CSV conversion script.  The script
opens a Numbers document, takes the first table of the first sheet,
stringifies every cell (`None` becomes the empty string), and writes the
rows through Python's `csv.writer` (default dialect: delimiter `,`,
quote char `"`, `QUOTE_MINIMAL`, record terminator `"\r\n"`, doubled
embedded quotes, and a lone empty field quoted as `""`).

The external `numbers_parser` library is modelled as an oracle that either
yields a parsed `Document` or raises (the `Except.error` case).  File and
console side effects are captured in a `ConvertResult` record.
-/

/-- A dynamically typed cell value as produced by the parsing library
(texts, integers, booleans; `None` is modelled by `Option.none` at the
cell level). -/
inductive PyValue
  | str (s : String)
  | int (n : Int)
  | bool (b : Bool)
  deriving DecidableEq

/-- Python's default `str()` rendering of a (non-`None`) value. -/
def pyStr : PyValue → String
  | .str s => s
  | .int n => toString n
  | .bool b => if b then "True" else "False"

/-- A table cell: `value` is `none` when the cell is empty (`None`). -/
structure Cell where
  value : Option PyValue
  deriving DecidableEq

/-- `if value is None: value = ''` followed by `str(value)` (lines 37-42). -/
def cellText (c : Cell) : String :=
  pyStr (c.value.getD (.str ""))

/-- A table: `iter_rows()` yields the rows, each row a list of cells. -/
structure Table where
  rows : List (List Cell)
  deriving DecidableEq

/-- A sheet holds an ordered list of tables. -/
structure Sheet where
  tables : List Table
  deriving DecidableEq

/-- A document holds an ordered list of sheets. -/
structure Document where
  sheets : List Sheet
  deriving DecidableEq

/-! ## Python's `csv.writer`, default dialect -/

/-- Characters that force quoting under `QUOTE_MINIMAL`: the delimiter,
the quote char, and the characters of the line terminator `"\r\n"`. -/
def specialChar (c : Char) : Bool :=
  c = ',' || c = '"' || c = '\r' || c = '\n'

/-- Double every embedded quote character (`doublequote = True`). -/
def escDQ : List Char → List Char
  | [] => []
  | c :: cs => if c = '"' then '"' :: '"' :: escDQ cs else c :: escDQ cs

/-- Encode one field: quote it iff it contains a special character. -/
def encodeFieldL (s : List Char) : List Char :=
  if s.any specialChar then '"' :: (escDQ s ++ ['"']) else s

/-- Join encoded fields with the `,` delimiter. -/
def interc : List (List Char) → List Char
  | [] => []
  | [f] => f
  | f :: fs => f ++ ',' :: interc fs

/-- Encode one record.  A record consisting of a single empty field is
written as `""` (CPython `_csv.c` quotes it so the row is not mistaken
for a blank line). -/
def encodeRecordL (r : List (List Char)) : List Char :=
  if r = [[]] then ['"', '"'] else interc (r.map encodeFieldL)

/-- The full file contents: every record is terminated by `"\r\n"`
(the file is opened with `newline=''`, so the terminator is written
literally). -/
def writeRowsL : List (List (List Char)) → List Char
  | [] => []
  | r :: rs => encodeRecordL r ++ '\r' :: '\n' :: writeRowsL rs

/-- String-level field encoder. -/
def encodeField (s : String) : String :=
  String.mk (encodeFieldL s.data)

/-- String-level record encoder. -/
def encodeRecord (r : List String) : String :=
  String.mk (encodeRecordL (r.map String.data))

/-- String-level writer: the text `csv.writer` puts in the output file. -/
def writeCSV (rows : List (List String)) : String :=
  String.mk (writeRowsL (rows.map (fun r => r.map String.data)))

/-! ## A standard CSV reader (CPython `_csv.c` state machine,
default dialect, one character at a time) -/

/-- Reader states, named after the CPython reader states. -/
inductive Mode
  | startRecord
  | startField
  | inField
  | inQuoted
  | quoteInQuoted
  | eatCRNL
  deriving DecidableEq

/-- One-character-at-a-time CSV reader.  `fld` is the field accumulated
so far, `rec` the fields of the current record; completed records are
emitted in order. -/
def csvRunL : List Char → Mode → List Char → List (List Char) → List (List (List Char))
  | [], m, fld, rec =>
    match m with
    | .startRecord => []
    | .eatCRNL => []
    | _ => [rec ++ [fld]]
  | c :: cs, m, fld, rec =>
    match m with
    | .startRecord =>
      if c = '\n' then [] :: csvRunL cs .startRecord [] []
      else if c = '\r' then [] :: csvRunL cs .eatCRNL [] []
      else if c = '"' then csvRunL cs .inQuoted [] []
      else if c = ',' then csvRunL cs .startField [] [[]]
      else csvRunL cs .inField [c] []
    | .eatCRNL =>
      if c = '\n' then csvRunL cs .startRecord [] []
      else if c = '\r' then [] :: csvRunL cs .eatCRNL [] []
      else if c = '"' then csvRunL cs .inQuoted [] []
      else if c = ',' then csvRunL cs .startField [] [[]]
      else csvRunL cs .inField [c] []
    | .startField =>
      if c = '\n' then (rec ++ [fld]) :: csvRunL cs .startRecord [] []
      else if c = '\r' then (rec ++ [fld]) :: csvRunL cs .eatCRNL [] []
      else if c = '"' then csvRunL cs .inQuoted fld rec
      else if c = ',' then csvRunL cs .startField [] (rec ++ [fld])
      else csvRunL cs .inField (fld ++ [c]) rec
    | .inField =>
      if c = '\n' then (rec ++ [fld]) :: csvRunL cs .startRecord [] []
      else if c = '\r' then (rec ++ [fld]) :: csvRunL cs .eatCRNL [] []
      else if c = ',' then csvRunL cs .startField [] (rec ++ [fld])
      else csvRunL cs .inField (fld ++ [c]) rec
    | .inQuoted =>
      if c = '"' then csvRunL cs .quoteInQuoted fld rec
      else csvRunL cs .inQuoted (fld ++ [c]) rec
    | .quoteInQuoted =>
      if c = '"' then csvRunL cs .inQuoted (fld ++ ['"']) rec
      else if c = '\n' then (rec ++ [fld]) :: csvRunL cs .startRecord [] []
      else if c = '\r' then (rec ++ [fld]) :: csvRunL cs .eatCRNL [] []
      else if c = ',' then csvRunL cs .startField [] (rec ++ [fld])
      else csvRunL cs .inField (fld ++ [c]) rec

/-- Parse a CSV text into its records. -/
def parseCSV (s : String) : List (List String) :=
  (csvRunL s.data .startRecord [] []).map (fun r => r.map String.mk)

/-! ## The conversion routine (`convert_numbers_to_csv`, lines 9-52) -/

/-- The stringified rows of a table: the loop of lines 34-42. -/
def tableText (t : Table) : List (List String) :=
  t.rows.map (fun row => row.map cellText)

/-- The observable outcome of one conversion run: the returned boolean,
the file contents written at the output path (`none` when no file was
created), the console lines printed, and whether a diagnostic traceback
was printed. -/
structure ConvertResult where
  success : Bool
  output : Option String
  messages : List String
  tracePrinted : Bool
  deriving DecidableEq

/-- Shallow embedding of `convert_numbers_to_csv(numbers_file, csv_file)`.
`openDoc` models the outcome of `Document(numbers_file)`: the library
either returns a parsed document or raises an exception carrying a
message.  Any exception is caught by the surrounding `try`/`except`,
which prints the error plus a traceback and returns `False`. -/
def convert_numbers_to_csv (openDoc : Except String Document) (csv_file : String) :
    ConvertResult :=
  match openDoc with
  | .error e =>
    { success := false, output := none,
      messages := ["❌ Error converting file: " ++ e], tracePrinted := true }
  | .ok doc =>
    match doc.sheets with
    | [] =>
      { success := false, output := none,
        messages := ["Error: No sheets found in Numbers file"], tracePrinted := false }
    | sheet :: _ =>
      match sheet.tables with
      | [] =>
        { success := false, output := none,
          messages := ["Error: No tables found in sheet"], tracePrinted := false }
      | table :: _ =>
        { success := true,
          output := some (writeCSV (tableText table)),
          messages := ["✅ Successfully converted to " ++ csv_file],
          tracePrinted := false }

/-- The bytes actually written to the output file: the CSV text encoded
as UTF-8 (`open(csv_file, 'w', newline='', encoding='utf-8')`). -/
def writtenBytes (r : ConvertResult) : Option ByteArray :=
  r.output.map String.toUTF8

/-- The hard-coded output path of the `__main__` block. -/
def mainCsvPath : String :=
  "/Users/seong-won-yeong/Dev/ga4TechIssueCatcher/data/properties-import.csv"

/-- The `__main__` block: exit code 0 when the conversion returned
`True`, exit code 1 otherwise. -/
def mainExitCode (openDoc : Except String Document) : Nat :=
  if (convert_numbers_to_csv openDoc mainCsvPath).success then 0 else 1

/-! ## Concrete documents used to instantiate the theorems -/

/-- The table of the spec's round-trip scenario (with the middle-row
blank cell taken as an absent value and the age as an integer). -/
def sampleTable : Table :=
  ⟨[[⟨some (.str "Name")⟩, ⟨some (.str "Age")⟩],
    [⟨some (.str "Kim")⟩, ⟨none⟩],
    [⟨some (.str "Lee, J.")⟩, ⟨some (.int 30)⟩]]⟩

/-- A sheet holding just the sample table. -/
def sampleSheet : Sheet := ⟨[sampleTable]⟩

/-- A well-formed single-sheet, single-table document. -/
def sampleDoc : Document := ⟨[sampleSheet]⟩

/-- A document like `sampleDoc` but with an extra empty trailing table
and an extra trailing sheet. -/
def paddedDoc : Document := ⟨[⟨[sampleTable, ⟨[]⟩]⟩, ⟨[⟨[[⟨none⟩]]⟩]⟩]⟩

/-- A document whose only table has zero rows. -/
def emptyTableDoc : Document := ⟨[⟨[⟨[]⟩]⟩]⟩

/-! ## Round-trip of the writer through the reader -/

theorem mk_data (s : String) : String.mk s.data = s := rfl

theorem interc_cons_cons (a b : List Char) (t : List (List Char)) :
    interc (a :: b :: t) = a ++ ',' :: interc (b :: t) := rfl

/-- Inside a quoted field, the reader undoes the quote doubling. -/
theorem escDQ_run : ∀ (s rest fld : List Char) (rec : List (List Char)),
    csvRunL (escDQ s ++ rest) .inQuoted fld rec = csvRunL rest .inQuoted (fld ++ s) rec
  | [], rest, fld, rec => by simp [escDQ]
  | c :: t, rest, fld, rec => by
    by_cases h : c = '"'
    · subst h
      have e1 : escDQ ('"' :: t) ++ rest = '"' :: '"' :: (escDQ t ++ rest) := by
        simp [escDQ]
      have e2 : csvRunL ('"' :: '"' :: (escDQ t ++ rest)) .inQuoted fld rec =
          csvRunL (escDQ t ++ rest) .inQuoted (fld ++ ['"']) rec := rfl
      rw [e1, e2, escDQ_run t rest (fld ++ ['"']) rec, List.append_assoc]
      rfl
    · have e1 : escDQ (c :: t) ++ rest = c :: (escDQ t ++ rest) := by
        simp [escDQ, h]
      have e2 : csvRunL (c :: (escDQ t ++ rest)) .inQuoted fld rec =
          csvRunL (escDQ t ++ rest) .inQuoted (fld ++ [c]) rec := by
        simp [csvRunL, h]
      rw [e1, e2, escDQ_run t rest (fld ++ [c]) rec, List.append_assoc]
      rfl

/-- An unquoted run of ordinary characters is accumulated verbatim. -/
theorem plain_run : ∀ (s rest fld : List Char) (rec : List (List Char)),
    (∀ c ∈ s, specialChar c = false) →
    csvRunL (s ++ rest) .inField fld rec = csvRunL rest .inField (fld ++ s) rec
  | [], rest, fld, rec, _ => by simp
  | c :: t, rest, fld, rec, h => by
    have hc : specialChar c = false := h c (List.mem_cons_self c t)
    simp only [specialChar, Bool.or_eq_false_iff, decide_eq_false_iff_not] at hc
    have e2 : csvRunL (c :: (t ++ rest)) .inField fld rec =
        csvRunL (t ++ rest) .inField (fld ++ [c]) rec := by
      simp [csvRunL, hc.2, hc.1.2, hc.1.1.1]
    have ht : ∀ x ∈ t, specialChar x = false := fun x hx => h x (List.mem_cons_of_mem c hx)
    rw [List.cons_append, e2, plain_run t rest (fld ++ [c]) rec ht, List.append_assoc]
    rfl

/-- A character of a field that does not trigger quoting is not special. -/
theorem no_special_of_not_any (s : List Char) (hq : ¬ s.any specialChar = true) :
    ∀ x ∈ s, specialChar x = false := by
  intro x hx
  cases e : specialChar x
  · rfl
  · exact absurd (List.any_eq_true.mpr ⟨x, hx, e⟩) hq

/-- Reading one encoded field followed by a delimiter, starting at the
beginning of a field mid-record. -/
theorem field_comma (s cs : List Char) (rec : List (List Char)) :
    csvRunL (encodeFieldL s ++ ',' :: cs) .startField [] rec =
      csvRunL cs .startField [] (rec ++ [s]) := by
  by_cases hq : s.any specialChar = true
  · rw [encodeFieldL, if_pos hq]
    have e1 : ('"' :: (escDQ s ++ ['"'])) ++ ',' :: cs =
        '"' :: (escDQ s ++ ('"' :: ',' :: cs)) := by simp
    have e2 : csvRunL ('"' :: (escDQ s ++ ('"' :: ',' :: cs))) .startField [] rec =
        csvRunL (escDQ s ++ ('"' :: ',' :: cs)) .inQuoted [] rec := rfl
    rw [e1, e2, escDQ_run]
    rfl
  · rw [encodeFieldL, if_neg hq]
    rcases s with _ | ⟨a, t⟩
    · rfl
    · have hs := no_special_of_not_any _ hq
      have ha : specialChar a = false := hs a (List.mem_cons_self a t)
      simp only [specialChar, Bool.or_eq_false_iff, decide_eq_false_iff_not] at ha
      have e2 : csvRunL (a :: (t ++ ',' :: cs)) .startField [] rec =
          csvRunL (t ++ ',' :: cs) .inField [a] rec := by
        simp [csvRunL, ha.2, ha.1.2, ha.1.1.1, ha.1.1.2]
      have ht : ∀ x ∈ t, specialChar x = false := fun x hx =>
        hs x (List.mem_cons_of_mem a hx)
      rw [List.cons_append, e2, plain_run t (',' :: cs) [a] rec ht]
      rfl

/-- Reading one encoded field followed by the record terminator,
starting at the beginning of a field mid-record. -/
theorem field_crlf (s cs : List Char) (rec : List (List Char)) :
    csvRunL (encodeFieldL s ++ '\r' :: '\n' :: cs) .startField [] rec =
      (rec ++ [s]) :: csvRunL cs .startRecord [] [] := by
  by_cases hq : s.any specialChar = true
  · rw [encodeFieldL, if_pos hq]
    have e1 : ('"' :: (escDQ s ++ ['"'])) ++ '\r' :: '\n' :: cs =
        '"' :: (escDQ s ++ ('"' :: '\r' :: '\n' :: cs)) := by simp
    have e2 : csvRunL ('"' :: (escDQ s ++ ('"' :: '\r' :: '\n' :: cs))) .startField [] rec =
        csvRunL (escDQ s ++ ('"' :: '\r' :: '\n' :: cs)) .inQuoted [] rec := rfl
    rw [e1, e2, escDQ_run]
    rfl
  · rw [encodeFieldL, if_neg hq]
    rcases s with _ | ⟨a, t⟩
    · rfl
    · have hs := no_special_of_not_any _ hq
      have ha : specialChar a = false := hs a (List.mem_cons_self a t)
      simp only [specialChar, Bool.or_eq_false_iff, decide_eq_false_iff_not] at ha
      have e2 : csvRunL (a :: (t ++ '\r' :: '\n' :: cs)) .startField [] rec =
          csvRunL (t ++ '\r' :: '\n' :: cs) .inField [a] rec := by
        simp [csvRunL, ha.2, ha.1.2, ha.1.1.1, ha.1.1.2]
      have ht : ∀ x ∈ t, specialChar x = false := fun x hx =>
        hs x (List.mem_cons_of_mem a hx)
      rw [List.cons_append, e2, plain_run t ('\r' :: '\n' :: cs) [a] rec ht]
      rfl

/-- Reading one encoded field followed by a delimiter at the very start
of a record. -/
theorem field_comma_sr (s cs : List Char) :
    csvRunL (encodeFieldL s ++ ',' :: cs) .startRecord [] [] =
      csvRunL cs .startField [] [s] := by
  by_cases hq : s.any specialChar = true
  · rw [encodeFieldL, if_pos hq]
    have e1 : ('"' :: (escDQ s ++ ['"'])) ++ ',' :: cs =
        '"' :: (escDQ s ++ ('"' :: ',' :: cs)) := by simp
    have e2 : csvRunL ('"' :: (escDQ s ++ ('"' :: ',' :: cs))) .startRecord [] [] =
        csvRunL (escDQ s ++ ('"' :: ',' :: cs)) .inQuoted [] [] := rfl
    rw [e1, e2, escDQ_run]
    rfl
  · rw [encodeFieldL, if_neg hq]
    rcases s with _ | ⟨a, t⟩
    · rfl
    · have hs := no_special_of_not_any _ hq
      have ha : specialChar a = false := hs a (List.mem_cons_self a t)
      simp only [specialChar, Bool.or_eq_false_iff, decide_eq_false_iff_not] at ha
      have e2 : csvRunL (a :: (t ++ ',' :: cs)) .startRecord [] [] =
          csvRunL (t ++ ',' :: cs) .inField [a] [] := by
        simp [csvRunL, ha.2, ha.1.2, ha.1.1.1, ha.1.1.2]
      have ht : ∀ x ∈ t, specialChar x = false := fun x hx =>
        hs x (List.mem_cons_of_mem a hx)
      rw [List.cons_append, e2, plain_run t (',' :: cs) [a] [] ht]
      rfl

/-- Reading a nonempty encoded field followed by the record terminator
at the very start of a record. -/
theorem field_crlf_sr (s cs : List Char) (hs : s ≠ []) :
    csvRunL (encodeFieldL s ++ '\r' :: '\n' :: cs) .startRecord [] [] =
      [s] :: csvRunL cs .startRecord [] [] := by
  by_cases hq : s.any specialChar = true
  · rw [encodeFieldL, if_pos hq]
    have e1 : ('"' :: (escDQ s ++ ['"'])) ++ '\r' :: '\n' :: cs =
        '"' :: (escDQ s ++ ('"' :: '\r' :: '\n' :: cs)) := by simp
    have e2 : csvRunL ('"' :: (escDQ s ++ ('"' :: '\r' :: '\n' :: cs))) .startRecord [] [] =
        csvRunL (escDQ s ++ ('"' :: '\r' :: '\n' :: cs)) .inQuoted [] [] := rfl
    rw [e1, e2, escDQ_run]
    rfl
  · rw [encodeFieldL, if_neg hq]
    rcases s with _ | ⟨a, t⟩
    · exact absurd rfl hs
    · have hsp := no_special_of_not_any _ hq
      have ha : specialChar a = false := hsp a (List.mem_cons_self a t)
      simp only [specialChar, Bool.or_eq_false_iff, decide_eq_false_iff_not] at ha
      have e2 : csvRunL (a :: (t ++ '\r' :: '\n' :: cs)) .startRecord [] [] =
          csvRunL (t ++ '\r' :: '\n' :: cs) .inField [a] [] := by
        simp [csvRunL, ha.2, ha.1.2, ha.1.1.1, ha.1.1.2]
      have ht : ∀ x ∈ t, specialChar x = false := fun x hx =>
        hsp x (List.mem_cons_of_mem a hx)
      rw [List.cons_append, e2, plain_run t ('\r' :: '\n' :: cs) [a] [] ht]
      rfl

theorem interc_single (f : List Char) : interc [f] = f := rfl

/-- Reading the delimiter-joined encoding of a nonempty field list,
starting at a field boundary, yields exactly those fields. -/
theorem rec_fields : ∀ (fs : List (List Char)) (s cs : List Char) (rec : List (List Char)),
    csvRunL (interc (encodeFieldL s :: fs.map encodeFieldL) ++ '\r' :: '\n' :: cs)
        .startField [] rec =
      (rec ++ s :: fs) :: csvRunL cs .startRecord [] []
  | [], s, cs, rec => by
    rw [List.map_nil, interc_single, field_crlf]
  | f :: fs, s, cs, rec => by
    rw [List.map_cons, interc_cons_cons, List.append_assoc, List.cons_append,
      field_comma, rec_fields fs f cs (rec ++ [s])]
    simp

/-- Reading one full encoded record plus terminator emits that record. -/
theorem run_record (r : List (List Char)) (cs : List Char) :
    csvRunL (encodeRecordL r ++ '\r' :: '\n' :: cs) .startRecord [] [] =
      r :: csvRunL cs .startRecord [] [] := by
  by_cases h1 : r = [[]]
  · subst h1
    rw [encodeRecordL, if_pos rfl]
    rfl
  · rw [encodeRecordL, if_neg h1]
    rcases r with _ | ⟨s, fs⟩
    · rfl
    · rcases fs with _ | ⟨f, fs⟩
      · have hs : s ≠ [] := fun e => h1 (by rw [e])
        rw [List.map_cons, List.map_nil, interc_single, field_crlf_sr s cs hs]
      · rw [List.map_cons, List.map_cons, interc_cons_cons, List.append_assoc,
          List.cons_append, field_comma_sr, rec_fields fs f cs [s]]
        rfl

theorem run_writeRows : ∀ rows, csvRunL (writeRowsL rows) .startRecord [] [] = rows
  | [] => rfl
  | r :: rs => by
    rw [writeRowsL, run_record r (writeRowsL rs), run_writeRows rs]

/-- Write/parse round trip: parsing the file written for any row matrix
returns exactly that matrix. -/
theorem parseCSV_writeCSV (rows : List (List String)) :
    parseCSV (writeCSV rows) = rows := by
  show (csvRunL (writeRowsL (rows.map (fun r => r.map String.data))) .startRecord [] []).map
      (fun r => r.map String.mk) = rows
  rw [run_writeRows]
  simp [List.map_map, Function.comp_def, mk_data]



theorem data_mk (l : List Char) : (String.mk l).data = l := rfl

/-- The written file is the concatenation of the encoded records, each
followed by the same two-character terminator. -/
theorem writeRowsL_eq_join : ∀ rows,
    writeRowsL rows = (rows.map (fun r => encodeRecordL r ++ ['\r', '\n'])).flatten
  | [] => rfl
  | r :: rs => by
    rw [writeRowsL, writeRowsL_eq_join rs, List.map_cons, List.flatten_cons,
      List.append_assoc]
    rfl

/-- Reduction of `convert_numbers_to_csv` on a well-formed document. -/
theorem convert_ok (tb : Table) (tbs : List Table) (shs : List Sheet) (p : String) :
    convert_numbers_to_csv (.ok ⟨⟨tb :: tbs⟩ :: shs⟩) p =
      { success := true, output := some (writeCSV (tableText tb)),
        messages := ["✅ Successfully converted to " ++ p],
        tracePrinted := false } := rfl

/-! ## The claims -/

/-- Claim C1: for every document with at least one sheet whose first
sheet has at least one table, `convert` succeeds and the output file,
parsed as CSV, is exactly the stringified first table: same rows, same
per-row column counts, in the same order, with no reordering, filtering
or deduplication. -/
theorem C1_output_mirrors_first_table (d : Document) (p : String)
    (sheet : Sheet) (table : Table)
    (hsh : d.sheets.head? = some sheet) (htb : sheet.tables.head? = some table) :
    (convert_numbers_to_csv (.ok d) p).success = true ∧
    ∃ content, (convert_numbers_to_csv (.ok d) p).output = some content ∧
      parseCSV content = tableText table ∧
      (parseCSV content).length = table.rows.length ∧
      (parseCSV content).map List.length = table.rows.map List.length := by
  rcases d with ⟨sheets⟩
  rcases sheets with _ | ⟨sh, shs⟩
  · simp at hsh
  · simp only [List.head?_cons, Option.some.injEq] at hsh
    subst hsh
    rcases sh with ⟨tables⟩
    rcases tables with _ | ⟨tb, tbs⟩
    · simp at htb
    · simp only [List.head?_cons, Option.some.injEq] at htb
      subst htb
      rw [convert_ok]
      refine ⟨rfl, writeCSV (tableText tb), rfl, parseCSV_writeCSV _, ?_, ?_⟩
      · rw [parseCSV_writeCSV, tableText, List.length_map]
      · rw [parseCSV_writeCSV, tableText, List.map_map]
        simp [Function.comp_def]

theorem C1_output_mirrors_first_table_witness :
    (convert_numbers_to_csv (.ok sampleDoc) "out.csv").success = true ∧
    ∃ content, (convert_numbers_to_csv (.ok sampleDoc) "out.csv").output = some content ∧
      parseCSV content = tableText sampleTable ∧
      (parseCSV content).length = sampleTable.rows.length ∧
      (parseCSV content).map List.length = sampleTable.rows.map List.length :=
  C1_output_mirrors_first_table sampleDoc "out.csv" sampleSheet sampleTable rfl rfl

/-- Claim C2: the text emitted for a cell is the empty string when the
cell value is absent (never the placeholder text "None"), and otherwise
the value's default string rendering. -/
theorem C2_absent_cell_is_empty (c : Cell) :
    (c.value = none → cellText c = "" ∧ cellText c ≠ "None") ∧
    (∀ v, c.value = some v → cellText c = pyStr v) := by
  rcases c with ⟨v⟩
  constructor
  · intro h
    simp only at h
    subst h
    exact ⟨rfl, by decide⟩
  · intro w h
    simp only at h
    subst h
    rfl

theorem C2_absent_cell_is_empty_witness :
    (cellText ⟨none⟩ = "" ∧ cellText ⟨none⟩ ≠ "None") ∧
      cellText ⟨some (.int 30)⟩ = pyStr (.int 30) :=
  ⟨(C2_absent_cell_is_empty ⟨none⟩).1 rfl,
   (C2_absent_cell_is_empty ⟨some (.int 30)⟩).2 (.int 30) rfl⟩

/-- Claim C3: a field containing a comma, quote or line break is quoted
with embedded quotes doubled; a standard CSV reader recovers every
field of every written file exactly; in particular the spec's example
table round-trips and the comma-containing field is quoted on write. -/
theorem C3_quoting_roundtrip :
    (∀ s : String, s.data.any specialChar = true →
      (encodeField s).data = '"' :: (escDQ s.data ++ ['"'])) ∧
    (∀ rows : List (List String), parseCSV (writeCSV rows) = rows) ∧
    encodeField "Lee, J." = "\"Lee, J.\"" ∧
    parseCSV (writeCSV [["Name", "Age"], ["Kim", ""], ["Lee, J.", "30"]]) =
      [["Name", "Age"], ["Kim", ""], ["Lee, J.", "30"]] := by
  refine ⟨?_, parseCSV_writeCSV, by decide, by decide⟩
  intro s h
  rw [encodeField, data_mk, encodeFieldL, if_pos h]

theorem C3_quoting_roundtrip_witness :
    (encodeField "Lee, J.").data = '"' :: (escDQ "Lee, J.".data ++ ['"']) ∧
    parseCSV (writeCSV [["a,b"], ["c\"d"]]) = [["a,b"], ["c\"d"]] :=
  ⟨C3_quoting_roundtrip.1 "Lee, J." (by decide),
   C3_quoting_roundtrip.2.1 [["a,b"], ["c\"d"]]⟩

/-- Claim C4: with zero sheets, or zero tables in the first sheet,
`convert` fails with the specific message and writes no output file;
an output file exists only when a document, a sheet and a table were
all found. -/
theorem C4_structural_absence (d : Document) (p : String) :
    (d.sheets = [] →
      convert_numbers_to_csv (.ok d) p =
        { success := false, output := none,
          messages := ["Error: No sheets found in Numbers file"],
          tracePrinted := false }) ∧
    (∀ sh rest, d.sheets = sh :: rest → sh.tables = [] →
      convert_numbers_to_csv (.ok d) p =
        { success := false, output := none,
          messages := ["Error: No tables found in sheet"],
          tracePrinted := false }) ∧
    (∀ (openDoc : Except String Document) (content : String),
      (convert_numbers_to_csv openDoc p).output = some content →
      ∃ doc sheet table srest trest, openDoc = .ok doc ∧
        doc.sheets = sheet :: srest ∧ sheet.tables = table :: trest) := by
  refine ⟨?_, ?_, ?_⟩
  · intro h
    rcases d with ⟨sheets⟩
    simp only at h
    subst h
    rfl
  · intro sh rest h ht
    rcases d with ⟨sheets⟩
    simp only at h
    subst h
    rcases sh with ⟨tables⟩
    simp only at ht
    subst ht
    rfl
  · intro openDoc content h
    rcases openDoc with e | doc
    · simp [convert_numbers_to_csv] at h
    · rcases doc with ⟨sheets⟩
      rcases sheets with _ | ⟨sh, shs⟩
      · simp [convert_numbers_to_csv] at h
      · rcases sh with ⟨tables⟩
        rcases tables with _ | ⟨tb, tbs⟩
        · simp [convert_numbers_to_csv] at h
        · exact ⟨⟨(⟨tb :: tbs⟩ : Sheet) :: shs⟩, ⟨tb :: tbs⟩, tb, shs, tbs, rfl, rfl, rfl⟩

theorem C4_structural_absence_witness :
    (convert_numbers_to_csv (.ok ⟨[]⟩) "out.csv" =
      { success := false, output := none,
        messages := ["Error: No sheets found in Numbers file"],
        tracePrinted := false }) ∧
    (convert_numbers_to_csv (.ok ⟨[⟨[]⟩]⟩) "out.csv" =
      { success := false, output := none,
        messages := ["Error: No tables found in sheet"],
        tracePrinted := false }) ∧
    ∃ doc sheet table srest trest, (.ok sampleDoc : Except String Document) = .ok doc ∧
      doc.sheets = sheet :: srest ∧ sheet.tables = table :: trest :=
  ⟨(C4_structural_absence ⟨[]⟩ "out.csv").1 rfl,
   (C4_structural_absence ⟨[⟨[]⟩]⟩ "out.csv").2.1 ⟨[]⟩ [] rfl rfl,
   (C4_structural_absence sampleDoc "out.csv").2.2 (.ok sampleDoc)
     (writeCSV (tableText sampleTable)) rfl⟩

/-- Claim C5: the process exits 0 exactly when `convert` returned
success, and exits 1 on each failure path: no sheets, no tables in the
first sheet, or an exception. -/
theorem C5_exit_codes (openDoc : Except String Document) :
    (mainExitCode openDoc = 0 ↔
      (convert_numbers_to_csv openDoc mainCsvPath).success = true) ∧
    (mainExitCode openDoc = 1 ↔
      (convert_numbers_to_csv openDoc mainCsvPath).success = false) ∧
    (∀ e, mainExitCode (.error e) = 1) ∧
    (∀ d : Document, d.sheets = [] → mainExitCode (.ok d) = 1) ∧
    (∀ (d : Document) (sh : Sheet) (rest : List Sheet),
      d.sheets = sh :: rest → sh.tables = [] → mainExitCode (.ok d) = 1) := by
  refine ⟨?_, ?_, ?_, ?_, ?_⟩
  · cases h : (convert_numbers_to_csv openDoc mainCsvPath).success <;>
      simp [mainExitCode, h]
  · cases h : (convert_numbers_to_csv openDoc mainCsvPath).success <;>
      simp [mainExitCode, h]
  · intro e
    rfl
  · intro d h
    rcases d with ⟨sheets⟩
    simp only at h
    subst h
    rfl
  · intro d sh rest h ht
    rcases d with ⟨sheets⟩
    simp only at h
    subst h
    rcases sh with ⟨tables⟩
    simp only at ht
    subst ht
    rfl

theorem C5_exit_codes_witness :
    mainExitCode (.error "boom") = 1 ∧
    mainExitCode (.ok ⟨[]⟩) = 1 ∧
    mainExitCode (.ok ⟨[⟨[]⟩]⟩) = 1 ∧
    (mainExitCode (.ok sampleDoc) = 0 ↔
      (convert_numbers_to_csv (.ok sampleDoc) mainCsvPath).success = true) :=
  ⟨(C5_exit_codes (.error "boom")).2.2.1 "boom",
   (C5_exit_codes (.ok ⟨[]⟩)).2.2.2.1 ⟨[]⟩ rfl,
   (C5_exit_codes (.ok ⟨[⟨[]⟩]⟩)).2.2.2.2 ⟨[⟨[]⟩]⟩ ⟨[]⟩ [] rfl rfl,
   (C5_exit_codes (.ok sampleDoc)).1⟩

/-- Claim C6: `convert` never lets an exception escape: the exceptional
outcome of the library is absorbed into a plain failure result that
reports the exception text and prints a diagnostic trace, and the
routine's type is a total function into `ConvertResult`. -/
theorem C6_exceptions_contained (e : String) (p : String) :
    convert_numbers_to_csv (.error e) p =
      { success := false, output := none,
        messages := ["❌ Error converting file: " ++ e],
        tracePrinted := true } ∧
    (convert_numbers_to_csv (.error e) p).success = false ∧
    (convert_numbers_to_csv (.error e) p).tracePrinted = true :=
  ⟨rfl, rfl, rfl⟩

/-- Claim C7: `convert` is deterministic — two runs on the same input
produce the same result and byte-for-byte identical output files. -/
theorem C7_deterministic (openDoc : Except String Document) (p : String)
    (r₁ r₂ : ConvertResult)
    (h₁ : convert_numbers_to_csv openDoc p = r₁)
    (h₂ : convert_numbers_to_csv openDoc p = r₂) :
    r₁ = r₂ ∧ r₁.output = r₂.output ∧ writtenBytes r₁ = writtenBytes r₂ := by
  subst h₁
  subst h₂
  exact ⟨rfl, rfl, rfl⟩

theorem C7_deterministic_witness :
    convert_numbers_to_csv (.ok sampleDoc) "out.csv" =
        convert_numbers_to_csv (.ok sampleDoc) "out.csv" ∧
      (convert_numbers_to_csv (.ok sampleDoc) "out.csv").output =
        (convert_numbers_to_csv (.ok sampleDoc) "out.csv").output ∧
      writtenBytes (convert_numbers_to_csv (.ok sampleDoc) "out.csv") =
        writtenBytes (convert_numbers_to_csv (.ok sampleDoc) "out.csv") :=
  C7_deterministic (.ok sampleDoc) "out.csv" _ _ rfl rfl

/-- Claim C8: the result depends only on the first table of the first
sheet: two documents agreeing there produce identical results; other
sheets and tables never affect the output. -/
theorem C8_first_table_only (d₁ d₂ : Document) (p : String)
    (sh₁ sh₂ : Sheet) (t : Table)
    (h₁ : d₁.sheets.head? = some sh₁) (h₂ : d₂.sheets.head? = some sh₂)
    (ht₁ : sh₁.tables.head? = some t) (ht₂ : sh₂.tables.head? = some t) :
    convert_numbers_to_csv (.ok d₁) p = convert_numbers_to_csv (.ok d₂) p := by
  rcases d₁ with ⟨sheets₁⟩
  rcases sheets₁ with _ | ⟨a₁, rest₁⟩
  · simp at h₁
  · simp only [List.head?_cons, Option.some.injEq] at h₁
    subst h₁
    rcases d₂ with ⟨sheets₂⟩
    rcases sheets₂ with _ | ⟨a₂, rest₂⟩
    · simp at h₂
    · simp only [List.head?_cons, Option.some.injEq] at h₂
      subst h₂
      rcases a₁ with ⟨tables₁⟩
      rcases tables₁ with _ | ⟨b₁, ts₁⟩
      · simp at ht₁
      · simp only [List.head?_cons, Option.some.injEq] at ht₁
        subst ht₁
        rcases a₂ with ⟨tables₂⟩
        rcases tables₂ with _ | ⟨b₂, ts₂⟩
        · simp at ht₂
        · simp only [List.head?_cons, Option.some.injEq] at ht₂
          subst ht₂
          rw [convert_ok, convert_ok]

theorem C8_first_table_only_witness :
    convert_numbers_to_csv (.ok sampleDoc) "out.csv" =
      convert_numbers_to_csv (.ok paddedDoc) "out.csv" :=
  C8_first_table_only sampleDoc paddedDoc "out.csv" sampleSheet ⟨[sampleTable, ⟨[]⟩]⟩
    sampleTable rfl rfl rfl rfl

/-- Claim C9: every record of the output file is terminated by the same
literal two-character separator `"\r\n"` (the terminator mandated by the
chosen CSV convention), and the bytes written are the UTF-8 encoding of
the file text. -/
theorem C9_crlf_and_utf8 (d : Document) (p : String)
    (sheet : Sheet) (table : Table)
    (hsh : d.sheets.head? = some sheet) (htb : sheet.tables.head? = some table) :
    ∃ content, (convert_numbers_to_csv (.ok d) p).output = some content ∧
      content.data =
        ((tableText table).map (fun r => (encodeRecord r).data ++ ['\r', '\n'])).flatten ∧
      writtenBytes (convert_numbers_to_csv (.ok d) p) = some content.toUTF8 := by
  rcases d with ⟨sheets⟩
  rcases sheets with _ | ⟨sh, shs⟩
  · simp at hsh
  · simp only [List.head?_cons, Option.some.injEq] at hsh
    subst hsh
    rcases sh with ⟨tables⟩
    rcases tables with _ | ⟨tb, tbs⟩
    · simp at htb
    · simp only [List.head?_cons, Option.some.injEq] at htb
      subst htb
      rw [convert_ok]
      refine ⟨writeCSV (tableText tb), rfl, ?_, rfl⟩
      rw [writeCSV, data_mk, writeRowsL_eq_join, List.map_map]
      simp [Function.comp_def, encodeRecord]

theorem C9_crlf_and_utf8_witness :
    ∃ content, (convert_numbers_to_csv (.ok sampleDoc) "out.csv").output = some content ∧
      content.data =
        ((tableText sampleTable).map
          (fun r => (encodeRecord r).data ++ ['\r', '\n'])).flatten ∧
      writtenBytes (convert_numbers_to_csv (.ok sampleDoc) "out.csv") =
        some content.toUTF8 :=
  C9_crlf_and_utf8 sampleDoc "out.csv" sampleSheet sampleTable rfl rfl

/-- Claim C10: a first table with zero rows still converts successfully:
the output file is written with zero CSV records, the confirmation
naming the output path is printed, and the process exits with code 0. -/
theorem C10_empty_table_succeeds (d : Document) (p : String)
    (sheet : Sheet) (table : Table)
    (hsh : d.sheets.head? = some sheet) (htb : sheet.tables.head? = some table)
    (hrows : table.rows = []) :
    (convert_numbers_to_csv (.ok d) p).success = true ∧
    (convert_numbers_to_csv (.ok d) p).output = some "" ∧
    parseCSV "" = [] ∧
    (convert_numbers_to_csv (.ok d) p).messages =
      ["✅ Successfully converted to " ++ p] ∧
    mainExitCode (.ok d) = 0 := by
  rcases d with ⟨sheets⟩
  rcases sheets with _ | ⟨sh, shs⟩
  · simp at hsh
  · simp only [List.head?_cons, Option.some.injEq] at hsh
    subst hsh
    rcases sh with ⟨tables⟩
    rcases tables with _ | ⟨tb, tbs⟩
    · simp at htb
    · simp only [List.head?_cons, Option.some.injEq] at htb
      subst htb
      rw [convert_ok]
      have hw : writeCSV (tableText tb) = "" := by
        rw [tableText, hrows]
        rfl
      refine ⟨rfl, by rw [hw], rfl, rfl, ?_⟩
      rw [mainExitCode, convert_ok]
      rfl

theorem C10_empty_table_succeeds_witness :
    (convert_numbers_to_csv (.ok emptyTableDoc) "out.csv").success = true ∧
    (convert_numbers_to_csv (.ok emptyTableDoc) "out.csv").output = some "" ∧
    parseCSV "" = [] ∧
    (convert_numbers_to_csv (.ok emptyTableDoc) "out.csv").messages =
      ["✅ Successfully converted to out.csv"] ∧
    mainExitCode (.ok emptyTableDoc) = 0 :=
  C10_empty_table_succeeds emptyTableDoc "out.csv" ⟨[⟨[]⟩]⟩ ⟨[]⟩ rfl rfl rfl
